import Mathlib

/-!
Shallow embedding of `src/generate_proper_icons.py` (the icon generator of
RememberMe-2.0) and proofs about its specification.

Modelling conventions:
* Python floats are modelled by exact rationals (`ℚ`); `int(_)` truncation
  toward zero is `pyInt`.
* Fallible Python code (exceptions: `IndexError`, `ValueError`,
  `AttributeError`, XML parse failures) is modelled with `Option`.
* The XML document is abstracted to exactly what `parse_svg_colors`
  inspects: the optional first gradient element and the `stop-color`
  attributes of its `stop` children.
* The gradient background is modelled pixel-by-pixel (each of its
  `draw.line` calls paints one full row a single solid color); the overlay
  motif (three ellipses, two segments) is kept as symbolic draw calls,
  since no claim depends on PIL's rasterization of those shapes.
-/

set_option autoImplicit false

namespace RememberMe

/-- An RGB color triple (red, green, blue), as returned by `hex_to_rgb`. -/
abbrev Color := Nat × Nat × Nat

/-- An RGBA pixel / fill tuple as handed to PIL. -/
structure RGBA where
  red : Int
  green : Int
  blue : Int
  alpha : Int
deriving DecidableEq

/-- Python `int(x)` on a real value: truncation toward zero.  The source
computes these expressions in IEEE doubles; the model uses exact rationals. -/
def pyInt (x : ℚ) : Int := if 0 ≤ x then ⌊x⌋ else ⌈x⌉

/-- Value of one hexadecimal digit, as accepted by Python `int(_, 16)`. -/
def hexDigitVal (c : Char) : Option Nat :=
  if '0' ≤ c ∧ c ≤ '9' then some (c.toNat - '0'.toNat)
  else if 'a' ≤ c ∧ c ≤ 'f' then some (c.toNat - 'a'.toNat + 10)
  else if 'A' ≤ c ∧ c ≤ 'F' then some (c.toNat - 'A'.toNat + 10)
  else none

/-- Python `int(s[i:i+2], 16)`: take the (at most two-character) slice at
offset `i` and read it in base 16; `none` models the `ValueError` raised on
an empty slice or a non-hex character. -/
def hexSlice (cs : List Char) (i : Nat) : Option Nat :=
  let sl := (cs.drop i).take 2
  if sl.isEmpty then none
  else sl.foldlM (fun acc c => (hexDigitVal c).map (fun v => 16 * acc + v)) 0

/-- `hex_to_rgb` (src/generate_proper_icons.py lines 34-37): strip leading
`#` characters (Python `lstrip('#')`), then parse the two-character slices
at offsets 0, 2 and 4 as base-16 integers. -/
def hex_to_rgb (hexColor : String) : Option Color := do
  let cs := hexColor.data.dropWhile (· == '#')
  let r ← hexSlice cs 0
  let g ← hexSlice cs 2
  let b ← hexSlice cs 4
  pure (r, g, b)

/-- A `stop` child of a gradient: its `stop-color` attribute, `none` when
the attribute is absent (Python `stop.get` then yields `None`). -/
structure SvgStop where
  stopColor : Option String
deriving DecidableEq

/-- The first `linearGradient` element found in the document, with its
`stop` children in document order. -/
structure SvgGradient where
  stops : List SvgStop
deriving DecidableEq

/-- An SVG document as far as `parse_svg_colors` inspects it. -/
structure SvgDoc where
  gradient : Option SvgGradient
deriving DecidableEq

/-- The hardcoded fallback stop colors `['#6366f1', '#8b5cf6']`. -/
def defaultColors : List (Option String) := [some "#6366f1", some "#8b5cf6"]

/-- `parse_svg_colors` (lines 10-32).  Input `none` models a file that
`ET.parse` cannot read: that exception path returns the defaults and prints
a warning — the `Bool` of the result records whether the warning was
emitted.  Otherwise the stop colors of the first gradient element are
collected (an absent gradient contributes no stops) and an empty collection
falls back to the defaults. -/
def parse_svg_colors (doc : Option SvgDoc) : List (Option String) × Bool :=
  match doc with
  | none => (defaultColors, true)
  | some d =>
    let stops : List (Option String) :=
      match d.gradient with
      | none => []
      | some g => g.stops.map (fun st => st.stopColor)
    (if stops.isEmpty then defaultColors else stops, false)

/-- A drawing primitive issued to `ImageDraw` after the background fill. -/
inductive DrawOp where
  | ellipse (corner1 corner2 : Int × Int) (fill : RGBA)
  | line (a b : Int × Int) (fill : RGBA) (width : Nat)
deriving DecidableEq

/-- A raster image: the canvas dimensions passed to `Image.new` and the
pixel grid as a list of rows. -/
structure Image where
  width : Nat
  height : Nat
  px : List (List RGBA)
deriving DecidableEq

/-- The pixel in column `x` of row `y`. -/
def getPixel (img : Image) (x y : Nat) : Option RGBA :=
  (img.px[y]?).bind (fun row => row[x]?)

/-- One channel of the gradient fill at row `y` (lines 50-53):
`int(c0 + (c1 - c0) * (y / size))`. -/
def interpChannel (c0 c1 : Nat) (y size : Nat) : Int :=
  pyInt ((c0 : ℚ) + ((c1 : ℚ) - (c0 : ℚ)) * ((y : ℚ) / (size : ℚ)))

/-- The solid fill `draw.line` paints across row `y` of the background:
the three interpolated channels at full opacity. -/
def rowFill (c1 c2 : Color) (y size : Nat) : RGBA :=
  ⟨interpChannel c1.1 c2.1 y size,
   interpChannel c1.2.1 c2.2.1 y size,
   interpChannel c1.2.2 c2.2.2 y size,
   255⟩

/-- The background after the gradient loop (lines 49-54): row `y` is painted
the single solid color `rowFill c1 c2 y size` across its full width. -/
def gradientGrid (c1 c2 : Color) (size : Nat) : List (List RGBA) :=
  (List.range size).map (fun y => List.replicate size (rowFill c1 c2 y size))

/-- The three node centers of lines 57-66 — left, top, right — around the
integer center `size // 2`, with offsets `int(size * 0.12)` and
`int(size * 0.15)`. -/
def iconNodes (size : Nat) : List (Int × Int) :=
  let cx : Int := (size / 2 : Nat)
  let cy : Int := (size / 2 : Nat)
  [(cx - pyInt ((size : ℚ) * (12 / 100)), cy),
   (cx, cy - pyInt ((size : ℚ) * (15 / 100))),
   (cx + pyInt ((size : ℚ) * (12 / 100)), cy)]

/-- `node_radius = max(4, size // 15)` (line 59). -/
def nodeRadius (size : Nat) : Nat := max 4 (size / 15)

/-- `line_width = max(2, size // 60)` (line 75). -/
def lineWidth (size : Nat) : Nat := max 2 (size / 60)

/-- The fill of the node circles: near-opaque white (line 72). -/
def nodeFill : RGBA := ⟨255, 255, 255, 240⟩

/-- The fill of the connecting segments: translucent white (lines 78, 81). -/
def segFill : RGBA := ⟨255, 255, 255, 180⟩

/-- The overlay draw calls of lines 68-81 in issue order: one filled ellipse
per node (bounding box `center ± node_radius`), then the two connecting
segments `nodes[1] → nodes[0]` and `nodes[1] → nodes[2]`. -/
def iconOps (size : Nat) : List DrawOp :=
  let ns := iconNodes size
  let r : Int := nodeRadius size
  let w := lineWidth size
  ns.map (fun p => DrawOp.ellipse (p.1 - r, p.2 - r) (p.1 + r, p.2 + r) nodeFill)
    ++ [DrawOp.line (ns.getD 1 (0, 0)) (ns.getD 0 (0, 0)) segFill w,
        DrawOp.line (ns.getD 1 (0, 0)) (ns.getD 2 (0, 0)) segFill w]

/-- The color lookups of lines 44-46: `hex_to_rgb(colors[0])` and
`hex_to_rgb(colors[1])`.  `none` models the `IndexError` on a too-short
list, the `AttributeError` on a `None` stop color, and the `ValueError` on
a malformed hex string. -/
def parseIconColors (colors : List (Option String)) : Option (Color × Color) := do
  let h0 ← colors[0]?
  let s0 ← h0
  let c1 ← hex_to_rgb s0
  let h1 ← colors[1]?
  let s1 ← h1
  let c2 ← hex_to_rgb s1
  pure (c1, c2)

/-- The pure part of `create_icon` (lines 41-81): the `size × size` RGBA
canvas with the gradient background, plus the overlay draw calls. -/
def mkIcon (size : Nat) (c : Color × Color) : Image × List DrawOp :=
  (⟨size, size, gradientGrid c.1 c.2 size⟩, iconOps size)

/-- `create_icon` (lines 39-85) up to the PNG encoding of the final save:
parse the two colors, render the canvas.  `none` models an uncaught
exception while reading the colors. -/
def create_icon (size : Nat) (colors : List (Option String)) :
    Option (Image × List DrawOp) :=
  (parseIconColors colors).map (mkIcon size)

/-- The entries of the `sizes` dict literal (lines 103-123) in source
order, the duplicate key 152 included. -/
def sizesEntries : List (Nat × String) :=
  [(72, "icon-72x72.png"),
   (96, "icon-96x96.png"),
   (128, "icon-128x128.png"),
   (144, "icon-144x144.png"),
   (152, "icon-152x152.png"),
   (192, "icon-192x192.png"),
   (384, "icon-384x384.png"),
   (512, "icon-512x512.png"),
   (76, "apple-touch-icon-76.png"),
   (120, "apple-touch-icon-120.png"),
   (152, "apple-touch-icon-152.png"),
   (167, "apple-touch-icon-167.png"),
   (180, "apple-touch-icon.png"),
   (640, "splash-screen.png")]

/-- Python dict-literal semantics for one binding: a repeated key keeps its
original position but takes the new value; a fresh key is appended. -/
def dictInsert (d : List (Nat × String)) (k : Nat) (v : String) :
    List (Nat × String) :=
  if d.any (fun p => p.1 == k) then
    d.map (fun p => if p.1 == k then (k, v) else p)
  else d ++ [(k, v)]

/-- The `sizes` dict as `main` iterates it (insertion-ordered, deduplicated
with last-value-wins). -/
def sizesDict : List (Nat × String) :=
  sizesEntries.foldl (fun d p => dictInsert d p.1 p.2) []

/-! ### Helper lemmas -/

theorem pyInt_of_nonneg {x : ℚ} (h : 0 ≤ x) : pyInt x = ⌊x⌋ := by
  rw [pyInt, if_pos h]

theorem pyInt_natCast (n : Nat) : pyInt (n : ℚ) = n := by
  rw [pyInt_of_nonneg (by positivity)]
  exact_mod_cast Int.floor_natCast n

theorem pyInt_eq_of {z : Int} {q : ℚ} (h0 : 0 ≤ q) (h1 : (z : ℚ) ≤ q)
    (h2 : q < z + 1) : pyInt q = z := by
  rw [pyInt_of_nonneg h0]
  exact Int.floor_eq_iff.mpr ⟨h1, h2⟩

theorem interpChannel_zero (c0 c1 size : Nat) :
    interpChannel c0 c1 0 size = c0 := by
  have : ((c0 : ℚ) + ((c1 : ℚ) - (c0 : ℚ)) * ((0 : Nat) / (size : ℚ))) = (c0 : ℚ) := by
    push_cast; ring
  rw [interpChannel, this, pyInt_natCast]

theorem rowFill_zero (c1 c2 : Color) (size : Nat) :
    rowFill c1 c2 0 size = ⟨(c1.1 : Int), c1.2.1, c1.2.2, 255⟩ := by
  simp [rowFill, interpChannel_zero]

/-- The ratio `(size - 1) / size` used at the last row of the gradient. -/
theorem interpChannel_last (c0 c1 size : Nat) (hs : 0 < size)
    (h : ((c1 : Int) - (c0 : Int)).natAbs ≤ size) :
    ((interpChannel c0 c1 (size - 1) size) - c1).natAbs ≤ 1 := by
  have hs' : (0 : ℚ) < size := by exact_mod_cast hs
  have hcast : (((size - 1 : Nat)) : ℚ) = (size : ℚ) - 1 := by
    have : (1 : Nat) ≤ size := hs
    push_cast [Nat.cast_sub this]; ring
  set x : ℚ := (c0 : ℚ) + ((c1 : ℚ) - (c0 : ℚ)) * (((size - 1 : Nat) : ℚ) / (size : ℚ)) with hxdef
  have hxe : x = (c1 : ℚ) - ((c1 : ℚ) - (c0 : ℚ)) / size := by
    rw [hxdef, hcast]; field_simp; ring
  have hd : -(size : Int) ≤ (c1 : Int) - (c0 : Int) ∧ (c1 : Int) - (c0 : Int) ≤ size := by
    omega
  have hdq1 : ((c1 : ℚ) - (c0 : ℚ)) ≤ (size : ℚ) := by exact_mod_cast hd.2
  have hdq2 : -((size : ℚ)) ≤ ((c1 : ℚ) - (c0 : ℚ)) := by exact_mod_cast hd.1
  have hdiv1 : ((c1 : ℚ) - (c0 : ℚ)) / size ≤ 1 := (div_le_one hs').mpr hdq1
  have hdiv2 : -1 ≤ ((c1 : ℚ) - (c0 : ℚ)) / size := by
    rw [neg_le, ← neg_div]
    exact (div_le_one hs').mpr (by linarith)
  have hx0 : 0 ≤ x := by
    rw [hxdef, hcast]
    have h1 : (0 : ℚ) ≤ ((size : ℚ) - 1) / size := by
      apply div_nonneg _ (le_of_lt hs')
      have : (1 : ℚ) ≤ size := by exact_mod_cast hs
      linarith
    have h2 : ((size : ℚ) - 1) / size ≤ 1 := by
      apply (div_le_one hs').mpr; linarith
    nlinarith [Nat.cast_nonneg (α := ℚ) c0, Nat.cast_nonneg (α := ℚ) c1]
  have hic : interpChannel c0 c1 (size - 1) size = ⌊x⌋ := by
    rw [interpChannel, ← hxdef, pyInt_of_nonneg hx0]
  have hlow : (c1 : Int) - 1 ≤ ⌊x⌋ := by
    rw [Int.le_floor]
    push_cast
    rw [hxe]; linarith
  have hhigh : ⌊x⌋ ≤ (c1 : Int) + 1 := by
    have h1 : (⌊x⌋ : ℚ) ≤ x := Int.floor_le x
    have h2 : x ≤ (c1 : ℚ) + 1 := by rw [hxe]; linarith
    exact_mod_cast h1.trans h2
  rw [hic]
  omega

theorem getPixel_mkIcon {size x y : Nat} (c : Color × Color)
    (hx : x < size) (hy : y < size) :
    getPixel (mkIcon size c).1 x y = some (rowFill c.1 c.2 y size) := by
  simp [getPixel, mkIcon, gradientGrid, hx, hy]

theorem create_icon_dims {size : Nat} {colors : List (Option String)}
    {img : Image} {ops : List DrawOp}
    (h : create_icon size colors = some (img, ops)) :
    img.width = size ∧ img.height = size ∧ img.px.length = size ∧
      ∀ row ∈ img.px, row.length = size := by
  rw [create_icon] at h
  cases hp : parseIconColors colors with
  | none => rw [hp] at h; simp at h
  | some p =>
    rw [hp] at h
    have h' : mkIcon size p = (img, ops) := by simpa using h
    have himg : img = ⟨size, size, gradientGrid p.1 p.2 size⟩ := by
      have hfst := congrArg Prod.fst h'
      simpa [mkIcon] using hfst.symm
    subst himg
    refine ⟨rfl, rfl, by simp [gradientGrid], ?_⟩
    intro row hrow
    simp only [gradientGrid, List.mem_map, List.mem_range] at hrow
    obtain ⟨yy, _, hrow⟩ := hrow
    rw [← hrow, List.length_replicate]

/-! ### Claims -/

/-- C7: for every size `s > 0` and any stop-color list, a successful
`create_icon s` produces a canvas of exactly `s × s` pixels: the declared
dimensions are `s × s` and the pixel grid has `s` rows of `s` pixels each. -/
theorem C7_canvas_square (size : Nat) (_hs : 0 < size)
    (colors : List (Option String)) (img : Image) (ops : List DrawOp)
    (h : create_icon size colors = some (img, ops)) :
    img.width = size ∧ img.height = size ∧ img.px.length = size ∧
      ∀ row ∈ img.px, row.length = size :=
  create_icon_dims h

/-- Witness for C7 at size 2 with the default gradient. -/
theorem C7_canvas_square_witness :
    create_icon 2 defaultColors
        = some (mkIcon 2 ((99, 102, 241), (139, 92, 246))) ∧
    (mkIcon 2 ((99, 102, 241), (139, 92, 246))).1.width = 2 ∧
    (mkIcon 2 ((99, 102, 241), (139, 92, 246))).1.height = 2 :=
  ⟨rfl,
   (C7_canvas_square 2 (by decide) defaultColors _ _ rfl).1,
   (C7_canvas_square 2 (by decide) defaultColors _ _ rfl).2.1⟩

/-- C10: `create_icon` is deterministic — two invocations with identical
`(size, colors)` arguments produce identical results. -/
theorem C10_deterministic (size : Nat) (colors : List (Option String))
    (r₁ r₂ : Option (Image × List DrawOp))
    (h₁ : create_icon size colors = r₁) (h₂ : create_icon size colors = r₂) :
    r₁ = r₂ := by
  rw [← h₁, ← h₂]

/-- Witness for C10 at size 3 with the default colors. -/
theorem C10_deterministic_witness :
    create_icon 3 defaultColors = create_icon 3 defaultColors :=
  C10_deterministic 3 defaultColors
    (create_icon 3 defaultColors) (create_icon 3 defaultColors) rfl rfl

/-- C3 (counterexample): the deduplicated sizes table has 13 entries, not
14 — the duplicate key 152 collapses, so a run writes 13 icon files. -/
theorem C3_counterexample :
    sizesDict.length = 13 ∧ ¬ sizesDict.length = 14 := by decide

/-- C3 (amended): the size-to-filename table assigns each pixel size exactly
one filename; key 152 appears twice in the source literal but survives once,
as `apple-touch-icon-152.png`; `icon-152x152.png` is never among the
outputs; and exactly 13 icon files are produced per run. -/
theorem C3_sizes_table :
    (sizesDict.map Prod.fst).Nodup ∧
    sizesDict.lookup 152 = some "apple-touch-icon-152.png" ∧
    (sizesDict.map Prod.snd).contains "icon-152x152.png" = false ∧
    sizesEntries.countP (fun p => p.1 == 152) = 2 ∧
    sizesDict.countP (fun p => p.1 == 152) = 1 ∧
    sizesDict.length = 13 := by decide

/-- C8: on a document whose first gradient declares stop colors "#112233"
and "#445566" in that order, the extractor returns them in order and
`hex_to_rgb` converts them to (0x11,0x22,0x33) and (0x44,0x55,0x66). -/
theorem C8_two_stop_extraction :
    (parse_svg_colors (some ⟨some ⟨[⟨some "#112233"⟩, ⟨some "#445566"⟩]⟩⟩)).1
        = [some "#112233", some "#445566"] ∧
    ((parse_svg_colors (some ⟨some ⟨[⟨some "#112233"⟩, ⟨some "#445566"⟩]⟩⟩)).1.map
        (fun o => o.bind hex_to_rgb))
        = [some (0x11, 0x22, 0x33), some (0x44, 0x55, 0x66)] := by decide

/-- C6: a gradient with exactly one stop color makes the extractor return a
one-element list (not the two-color default); the renderer then has no
second color to read (`colors[1]` is out of range) and fails. -/
theorem C6_single_stop_breach (size : Nat) :
    (parse_svg_colors (some ⟨some ⟨[⟨some "#112233"⟩]⟩⟩)).1 = [some "#112233"] ∧
    (parse_svg_colors (some ⟨some ⟨[⟨some "#112233"⟩]⟩⟩)).1 ≠ defaultColors ∧
    ((parse_svg_colors (some ⟨some ⟨[⟨some "#112233"⟩]⟩⟩)).1)[1]? = none ∧
    create_icon size (parse_svg_colors (some ⟨some ⟨[⟨some "#112233"⟩]⟩⟩)).1
        = none := by
  have hps : (parse_svg_colors (some ⟨some ⟨[⟨some "#112233"⟩]⟩⟩)).1
      = [some "#112233"] := by decide
  have hpi : parseIconColors [some "#112233"] = none := by decide
  refine ⟨hps, by decide, by decide, ?_⟩
  rw [create_icon, hps, hpi]
  rfl

/-- C4: if the document cannot be read, contains no gradient element, or
its gradient has zero stops, the extractor returns the default colors —
which convert to (99,102,241) and (139,92,246) — and the unreadable-file
path emits the diagnostic warning.  (`parse_svg_colors` is a total
function: no exception escapes its boundary.) -/
theorem C4_default_fallback (doc : Option SvgDoc)
    (h : doc = none ∨ ∃ d, doc = some d ∧
          (d.gradient = none ∨ ∃ g, d.gradient = some g ∧ g.stops = [])) :
    (parse_svg_colors doc).1 = defaultColors ∧
    parseIconColors (parse_svg_colors doc).1
        = some ((99, 102, 241), (139, 92, 246)) ∧
    (doc = none → (parse_svg_colors doc).2 = true) := by
  have hdef : parseIconColors defaultColors
      = some ((99, 102, 241), (139, 92, 246)) := by decide
  rcases h with rfl | ⟨d, rfl, hg⟩
  · exact ⟨rfl, hdef, fun _ => rfl⟩
  · have h1 : (parse_svg_colors (some d)).1 = defaultColors := by
      rcases hg with hgn | ⟨g, hgs, hstops⟩
      · simp [parse_svg_colors, hgn]
      · simp [parse_svg_colors, hgs, hstops]
    exact ⟨h1, h1 ▸ hdef, fun hc => nomatch hc⟩

/-- Witness for C4 on the unreadable-document input. -/
theorem C4_default_fallback_witness :
    (parse_svg_colors none).1 = defaultColors ∧
    parseIconColors (parse_svg_colors none).1
        = some ((99, 102, 241), (139, 92, 246)) ∧
    ((none : Option SvgDoc) = none → (parse_svg_colors none).2 = true) :=
  C4_default_fallback none (Or.inl rfl)

/-- C1 (counterexample): no 640×1136 output exists — the splash variant is
produced by `create_icon 640`, whose canvas height is 640, not 1136. -/
theorem C1_counterexample :
    ¬ ∃ img ops, create_icon 640 defaultColors = some (img, ops) ∧
        img.height = 1136 := by
  rintro ⟨img, ops, h, h1136⟩
  have := (create_icon_dims h).2.1
  omega

/-- C1 (amended): the splash entry maps size 640 to `splash-screen.png` and
is rendered by the same square-icon procedure as every other entry: the
output is exactly 640×640; no compositing onto a 640×1136 canvas occurs. -/
theorem C1_splash_square :
    (640, "splash-screen.png") ∈ sizesDict ∧
    create_icon 640 defaultColors
        = some (mkIcon 640 ((99, 102, 241), (139, 92, 246))) ∧
    (mkIcon 640 ((99, 102, 241), (139, 92, 246))).1.width = 640 ∧
    (mkIcon 640 ((99, 102, 241), (139, 92, 246))).1.height = 640 :=
  ⟨by decide, rfl, rfl, rfl⟩

/-- C2 (counterexample): at size 1 with the default gradient the last row
(row 0) is filled with gradient[0] = (99,102,241); its red channel differs
from gradient[1].red = 139 by 40, far more than 1. -/
theorem C2_counterexample :
    getPixel (mkIcon 1 ((99, 102, 241), (139, 92, 246))).1 0 (1 - 1)
        = some ⟨99, 102, 241, 255⟩ ∧
    ¬ (((99 : Int) - 139).natAbs ≤ 1) := by
  constructor
  · rw [getPixel_mkIcon _ (by decide) (by decide), rowFill_zero]
    decide
  · decide

/-- C2 (amended): row 0's fill equals gradient[0] exactly in all three
channels, and row s-1's fill is within ±1 per channel of gradient[1]
provided each channel's difference has magnitude at most s (for smaller s
the truncated interpolation can stop short of gradient[1] by more than 1). -/
theorem C2_row_fills (size : Nat) (hs : 0 < size) (c1 c2 : Color)
    (hr : ((c2.1 : Int) - (c1.1 : Int)).natAbs ≤ size)
    (hg : ((c2.2.1 : Int) - (c1.2.1 : Int)).natAbs ≤ size)
    (hb : ((c2.2.2 : Int) - (c1.2.2 : Int)).natAbs ≤ size) :
    getPixel (mkIcon size (c1, c2)).1 0 0
        = some ⟨(c1.1 : Int), (c1.2.1 : Int), (c1.2.2 : Int), 255⟩ ∧
    getPixel (mkIcon size (c1, c2)).1 0 (size - 1)
        = some (rowFill c1 c2 (size - 1) size) ∧
    ((rowFill c1 c2 (size - 1) size).red - (c2.1 : Int)).natAbs ≤ 1 ∧
    ((rowFill c1 c2 (size - 1) size).green - (c2.2.1 : Int)).natAbs ≤ 1 ∧
    ((rowFill c1 c2 (size - 1) size).blue - (c2.2.2 : Int)).natAbs ≤ 1 := by
  refine ⟨?_, ?_, ?_, ?_, ?_⟩
  · rw [getPixel_mkIcon _ hs hs, rowFill_zero]
  · exact getPixel_mkIcon _ hs (by omega)
  · exact interpChannel_last _ _ _ hs hr
  · exact interpChannel_last _ _ _ hs hg
  · exact interpChannel_last _ _ _ hs hb

/-- Witness for C2 at size 128 with the default gradient. -/
theorem C2_row_fills_witness :
    getPixel (mkIcon 128 ((99, 102, 241), (139, 92, 246))).1 0 0
        = some ⟨99, 102, 241, 255⟩ ∧
    getPixel (mkIcon 128 ((99, 102, 241), (139, 92, 246))).1 0 (128 - 1)
        = some (rowFill (99, 102, 241) (139, 92, 246) (128 - 1) 128) ∧
    ((rowFill (99, 102, 241) (139, 92, 246) (128 - 1) 128).red - 139).natAbs ≤ 1 ∧
    ((rowFill (99, 102, 241) (139, 92, 246) (128 - 1) 128).green - 92).natAbs ≤ 1 ∧
    ((rowFill (99, 102, 241) (139, 92, 246) (128 - 1) 128).blue - 246).natAbs ≤ 1 :=
  C2_row_fills 128 (by decide) (99, 102, 241) (139, 92, 246)
    (by decide) (by decide) (by decide)

/-- C5: for every row y < s the background is painted one solid color with
channels `int(c0 + (c1 - c0) * (y / s))` at alpha 255, the same at every
column x < s — a top-to-bottom gradient independent of horizontal
position. -/
theorem C5_gradient_rows (size : Nat) (c1 c2 : Color) (x y : Nat)
    (hx : x < size) (hy : y < size) :
    getPixel (mkIcon size (c1, c2)).1 x y =
      some ⟨pyInt ((c1.1 : ℚ) + ((c2.1 : ℚ) - (c1.1 : ℚ)) * ((y : ℚ) / (size : ℚ))),
            pyInt ((c1.2.1 : ℚ) + ((c2.2.1 : ℚ) - (c1.2.1 : ℚ)) * ((y : ℚ) / (size : ℚ))),
            pyInt ((c1.2.2 : ℚ) + ((c2.2.2 : ℚ) - (c1.2.2 : ℚ)) * ((y : ℚ) / (size : ℚ))),
            255⟩ ∧
    ∀ x', x' < size →
      getPixel (mkIcon size (c1, c2)).1 x' y = getPixel (mkIcon size (c1, c2)).1 x y := by
  constructor
  · exact getPixel_mkIcon (c1, c2) hx hy
  · intro x' hx'
    rw [getPixel_mkIcon (c1, c2) hx' hy, getPixel_mkIcon (c1, c2) hx hy]

/-- Witness for C5 at size 2, pixel (1, 1), default gradient:
`int(241 + 5 * 0.5) = 243` shows the truncation. -/
theorem C5_gradient_rows_witness :
    getPixel (mkIcon 2 ((99, 102, 241), (139, 92, 246))).1 1 1
        = some ⟨119, 97, 243, 255⟩ := by
  have h := (C5_gradient_rows 2 (99, 102, 241) (139, 92, 246) 1 1
    (by decide) (by decide)).1
  rw [h]
  simp only [Option.some.injEq, RGBA.mk.injEq]
  refine ⟨?_, ?_, ?_, trivial⟩
  · exact pyInt_eq_of (by push_cast; norm_num) (by push_cast; norm_num)
      (by push_cast; norm_num)
  · exact pyInt_eq_of (by push_cast; norm_num) (by push_cast; norm_num)
      (by push_cast; norm_num)
  · exact pyInt_eq_of (by push_cast; norm_num) (by push_cast; norm_num)
      (by push_cast; norm_num)

/-- C9: the overlay consists of exactly three filled node circles in
near-opaque white — bounding boxes `center ± max(4, s/15)` around the
triangle centers `(s/2 - int(0.12 s), s/2)`, `(s/2, s/2 - int(0.15 s))` and
`(s/2 + int(0.12 s), s/2)` — followed by exactly two translucent-white
segments, top node to left node and top node to right node, of stroke width
`max(2, s/60)`. -/
theorem C9_overlay (size : Nat) (c : Color × Color) :
    (mkIcon size c).2 =
      [DrawOp.ellipse
          (((size / 2 : Nat) : Int) - pyInt ((size : ℚ) * (12 / 100))
              - ((max 4 (size / 15) : Nat) : Int),
           ((size / 2 : Nat) : Int) - ((max 4 (size / 15) : Nat) : Int))
          (((size / 2 : Nat) : Int) - pyInt ((size : ℚ) * (12 / 100))
              + ((max 4 (size / 15) : Nat) : Int),
           ((size / 2 : Nat) : Int) + ((max 4 (size / 15) : Nat) : Int))
          ⟨255, 255, 255, 240⟩,
       DrawOp.ellipse
          (((size / 2 : Nat) : Int) - ((max 4 (size / 15) : Nat) : Int),
           ((size / 2 : Nat) : Int) - pyInt ((size : ℚ) * (15 / 100))
              - ((max 4 (size / 15) : Nat) : Int))
          (((size / 2 : Nat) : Int) + ((max 4 (size / 15) : Nat) : Int),
           ((size / 2 : Nat) : Int) - pyInt ((size : ℚ) * (15 / 100))
              + ((max 4 (size / 15) : Nat) : Int))
          ⟨255, 255, 255, 240⟩,
       DrawOp.ellipse
          (((size / 2 : Nat) : Int) + pyInt ((size : ℚ) * (12 / 100))
              - ((max 4 (size / 15) : Nat) : Int),
           ((size / 2 : Nat) : Int) - ((max 4 (size / 15) : Nat) : Int))
          (((size / 2 : Nat) : Int) + pyInt ((size : ℚ) * (12 / 100))
              + ((max 4 (size / 15) : Nat) : Int),
           ((size / 2 : Nat) : Int) + ((max 4 (size / 15) : Nat) : Int))
          ⟨255, 255, 255, 240⟩,
       DrawOp.line
          (((size / 2 : Nat) : Int),
           ((size / 2 : Nat) : Int) - pyInt ((size : ℚ) * (15 / 100)))
          (((size / 2 : Nat) : Int) - pyInt ((size : ℚ) * (12 / 100)),
           ((size / 2 : Nat) : Int))
          ⟨255, 255, 255, 180⟩ (max 2 (size / 60)),
       DrawOp.line
          (((size / 2 : Nat) : Int),
           ((size / 2 : Nat) : Int) - pyInt ((size : ℚ) * (15 / 100)))
          (((size / 2 : Nat) : Int) + pyInt ((size : ℚ) * (12 / 100)),
           ((size / 2 : Nat) : Int))
          ⟨255, 255, 255, 180⟩ (max 2 (size / 60))] := rfl

end RememberMe
